import Mathlib

/-!
Shallow embedding of the `audit_project` repository (Python) in Lean 4,
with theorems checking the natural-language specification against the code.

Embedded modules:
* `app/services/compliance_service.py` — `ComplianceService`
* `app/services/ai_service.py` — `AIService`
* `app/services/notification_service.py` — `NotificationService`
* `audit_project/app/models/audit.py` — `AuditLog.log_event` / `log_audit_event`

Python dictionaries are modelled as insertion-ordered association lists,
Python floats as rationals, `datetime.now()` as an explicit integer clock
passed to each operation, and raised exceptions as `Except` values.
-/

namespace AuditProject

/-- Model of a Python value (the subset used by this repository: `None`,
strings, integers, lists and string-keyed dicts). -/
inductive PyVal where
  | none
  | str (s : String)
  | int (n : Int)
  | list (xs : List PyVal)
  | dict (fields : List (String × PyVal))

/-- Lookup in an insertion-ordered association list (Python `d[k]` / `k in d`). -/
def dictLookup {α : Type} (k : String) : List (String × α) → Option α
  | [] => Option.none
  | (k', v) :: rest => if k' = k then some v else dictLookup k rest

/-- Python `d[k] = v` on an insertion-ordered dict: replace the value in
place when the key is present, otherwise append the binding at the end. -/
def dictInsert {α : Type} (k : String) (v : α) : List (String × α) → List (String × α)
  | [] => [(k, v)]
  | (k', v') :: rest =>
      if k' = k then (k', v) :: rest else (k', v') :: dictInsert k v rest

theorem dictLookup_dictInsert_self {α : Type} (k : String) (v : α) :
    ∀ l : List (String × α), dictLookup k (dictInsert k v l) = some v := by
  intro l
  induction l with
  | nil => simp [dictInsert, dictLookup]
  | cons hd tl ih =>
      obtain ⟨k', v'⟩ := hd
      by_cases h : k' = k
      · simp [dictInsert, dictLookup, h]
      · simp [dictInsert, dictLookup, h, ih]

theorem dictLookup_dictInsert_ne {α : Type} (k k' : String) (v : α) (hne : k' ≠ k) :
    ∀ l : List (String × α), dictLookup k' (dictInsert k v l) = dictLookup k' l := by
  intro l
  induction l with
  | nil => simp [dictInsert, dictLookup, Ne.symm hne]
  | cons hd tl ih =>
      obtain ⟨k₀, v₀⟩ := hd
      by_cases h : k₀ = k
      · subst h
        simp [dictInsert, dictLookup, Ne.symm hne]
      · simp [dictInsert, dictLookup, h, ih]

/-! ### Model of `json.dumps(..., sort_keys=True)` and `hashlib.md5` -/

/-- Hex digit character for a nibble. -/
def hexDigit (n : Nat) : Char :=
  if n < 10 then Char.ofNat (48 + n) else Char.ofNat (87 + n)

/-- Lower-case hexadecimal rendering of `n` on `width` digits (big-endian). -/
def hexPad (width n : Nat) : String :=
  String.mk ((List.range width).map fun i =>
    hexDigit (n / 16 ^ (width - 1 - i) % 16))

/-- JSON string escaping as performed by Python `json.dumps` with the default
`ensure_ascii=True`: `"` and `\` are backslash-escaped, the common control
characters use their short forms, other control characters and all non-ASCII
characters use `\uXXXX` (with surrogate pairs above `U+FFFF`). -/
def jsonEscapeChar (c : Char) : String :=
  if c = '"' then "\\\""
  else if c = '\\' then "\\\\"
  else if c = '\n' then "\\n"
  else if c = '\t' then "\\t"
  else if c = '\r' then "\\r"
  else if c.toNat = 8 then "\\b"
  else if c.toNat = 12 then "\\f"
  else if c.toNat < 32 then "\\u" ++ hexPad 4 c.toNat
  else if c.toNat < 127 then String.mk [c]
  else if c.toNat < 65536 then "\\u" ++ hexPad 4 c.toNat
  else
    let v := c.toNat - 65536
    "\\u" ++ hexPad 4 (55296 + v / 1024) ++ "\\u" ++ hexPad 4 (56320 + v % 1024)

def jsonEscape (s : String) : String :=
  String.join (s.data.map jsonEscapeChar)

mutual
/-- Recursively sort every dict of a `PyVal` by key, modelling the effect of
`sort_keys=True` on the object members emitted by `json.dumps`. -/
def sortKeysV : PyVal → PyVal
  | PyVal.none => PyVal.none
  | PyVal.str s => PyVal.str s
  | PyVal.int n => PyVal.int n
  | PyVal.list xs => PyVal.list (sortKeysL xs)
  | PyVal.dict fs =>
      PyVal.dict (List.insertionSort (fun a b : String × PyVal => a.1 ≤ b.1) (sortKeysF fs))

def sortKeysL : List PyVal → List PyVal
  | [] => []
  | x :: xs => sortKeysV x :: sortKeysL xs

def sortKeysF : List (String × PyVal) → List (String × PyVal)
  | [] => []
  | (k, v) :: fs => (k, sortKeysV v) :: sortKeysF fs
end

mutual
/-- Serialize a `PyVal` with Python's default separators `", "` and `": "`
(dict members are emitted in list order; key sorting is done by `sortKeysV`). -/
def jsonRender : PyVal → String
  | PyVal.none => "null"
  | PyVal.str s => "\"" ++ jsonEscape s ++ "\""
  | PyVal.int n => toString n
  | PyVal.list xs => "[" ++ jsonRenderL xs ++ "]"
  | PyVal.dict fs => "\x7b" ++ jsonRenderF fs ++ "\x7d"

def jsonRenderL : List PyVal → String
  | [] => ""
  | [x] => jsonRender x
  | x :: y :: xs => jsonRender x ++ ", " ++ jsonRenderL (y :: xs)

def jsonRenderF : List (String × PyVal) → String
  | [] => ""
  | [(k, v)] => "\"" ++ jsonEscape k ++ "\": " ++ jsonRender v
  | (k, v) :: f :: fs =>
      "\"" ++ jsonEscape k ++ "\": " ++ jsonRender v ++ ", " ++ jsonRenderF (f :: fs)
end

/-- `json.dumps(v, sort_keys=True)`. -/
def jsonDumpsSorted (v : PyVal) : String :=
  jsonRender (sortKeysV v)

/-! MD5 (RFC 1321), modelling `hashlib.md5(...).hexdigest()`.  All 32-bit
machine arithmetic is done on `Nat` with explicit reduction mod `2^32`. -/

def u32 (n : Nat) : Nat := n % 4294967296

def rotl32 (x n : Nat) : Nat :=
  u32 ((x <<< n) ||| (x >>> (32 - n)))

def bnot32 (x : Nat) : Nat := Nat.xor x 4294967295

/-- Per-operation left-rotate amounts of MD5. -/
def md5S : List Nat :=
  [7, 12, 17, 22, 7, 12, 17, 22, 7, 12, 17, 22, 7, 12, 17, 22,
   5, 9, 14, 20, 5, 9, 14, 20, 5, 9, 14, 20, 5, 9, 14, 20,
   4, 11, 16, 23, 4, 11, 16, 23, 4, 11, 16, 23, 4, 11, 16, 23,
   6, 10, 15, 21, 6, 10, 15, 21, 6, 10, 15, 21, 6, 10, 15, 21]

/-- The MD5 sine-derived constant table `K[i] = floor(2^32 * |sin(i + 1)|)`. -/
def md5K : List Nat :=
  [3614090360, 3905402710, 606105819, 3250441966,
   4118548399, 1200080426, 2821735955, 4249261313,
   1770035416, 2336552879, 4294925233, 2304563134,
   1804603682, 4254626195, 2792965006, 1236535329,
   4129170786, 3225465664, 643717713, 3921069994,
   3593408605, 38016083, 3634488961, 3889429448,
   568446438, 3275163606, 4107603335, 1163531501,
   2850285829, 4243563512, 1735328473, 2368359562,
   4294588738, 2272392833, 1839030562, 4259657740,
   2763975236, 1272893353, 4139469664, 3200236656,
   681279174, 3936430074, 3572445317, 76029189,
   3654602809, 3873151461, 530742520, 3299628645,
   4096336452, 1126891415, 2878612391, 4237533241,
   1700485571, 2399980690, 4293915773, 2240044497,
   1873313359, 4264355552, 2734768916, 1309151649,
   4149444226, 3174756917, 718787259, 3951481745]

/-- Little-endian byte decomposition of `v` on `n` bytes. -/
def leBytes : Nat → Nat → List Nat
  | 0, _ => []
  | n + 1, v => v % 256 :: leBytes n (v / 256)

/-- Assemble a 32-bit word from up to four little-endian bytes. -/
def leWord : List Nat → Nat
  | [] => 0
  | b :: bs => b + 256 * leWord bs

/-- UTF-8 bytes of a string (`str.encode()`), as naturals. -/
def strBytes (s : String) : List Nat :=
  s.toUTF8.data.toList.map (fun b => b.toNat)

/-- MD5 padding: a 1-bit (byte `0x80`), zeros up to 56 mod 64, then the
original bit length as a 64-bit little-endian quantity. -/
def md5pad (msg : List Nat) : List Nat :=
  let len := msg.length
  let zeros := (64 + 56 - (len + 1) % 64) % 64
  msg ++ [128] ++ List.replicate zeros 0 ++ leBytes 8 (len * 8 % 18446744073709551616)

/-- One MD5 compression step on a 64-byte block. -/
def md5block (st : Nat × Nat × Nat × Nat) (block : List Nat) : Nat × Nat × Nat × Nat :=
  let M : Nat → Nat := fun g => leWord ((block.drop (4 * g)).take 4)
  let final := (List.range 64).foldl
    (fun (acc : Nat × Nat × Nat × Nat) i =>
      let (A, B, C, D) := acc
      let fg : Nat × Nat :=
        if i < 16 then ((B &&& C) ||| (bnot32 B &&& D), i)
        else if i < 32 then ((D &&& B) ||| (bnot32 D &&& C), (5 * i + 1) % 16)
        else if i < 48 then (Nat.xor (Nat.xor B C) D, (3 * i + 5) % 16)
        else (Nat.xor C (B ||| bnot32 D), (7 * i) % 16)
      let F := u32 (fg.1 + A + md5K.getD i 0 + M fg.2)
      (D, u32 (B + rotl32 F (md5S.getD i 0)), B, C))
    st
  (u32 (st.1 + final.1), u32 (st.2.1 + final.2.1),
   u32 (st.2.2.1 + final.2.2.1), u32 (st.2.2.2 + final.2.2.2))

/-- Hex rendering of one 32-bit register, little-endian byte order. -/
def wordHexLE (w : Nat) : String :=
  String.join ((leBytes 4 w).map (fun b => hexPad 2 b))

/-- `hashlib.md5(s.encode()).hexdigest()`. -/
def md5hex (s : String) : String :=
  let msg := md5pad (strBytes s)
  let nblocks := msg.length / 64
  let st := (List.range nblocks).foldl
    (fun st i => md5block st ((msg.drop (64 * i)).take 64))
    (1732584193, 4023233417, 2562383102, 271733878)
  wordHexLE st.1 ++ wordHexLE st.2.1 ++ wordHexLE st.2.2.1 ++ wordHexLE st.2.2.2

/-! ### `app/services/compliance_service.py` -/

namespace ComplianceService

/-- A compliance issue dict (`{'type': ..., 'severity': ...}`). -/
structure ComplianceIssue where
  issue_type : String
  severity : String
deriving Repr, DecidableEq

/-- The dict returned by the per-framework check functions. -/
structure FrameworkResult where
  framework : String
  status : String
  score : ℚ
  issues : List ComplianceIssue
  controls_checked : List String
deriving Repr, DecidableEq

/-- The dict built by `check_compliance`.  `checked_at` models the
`datetime.now().isoformat()` timestamp as the integer clock value at the
moment the result was computed. -/
structure ComplianceResults where
  overall_status : String
  checked_at : Int
  frameworks_checked : List String
  framework_results : List (String × FrameworkResult)
  issues : List ComplianceIssue
  recommendations : List String
  compliance_score : ℚ
deriving Repr, DecidableEq

/-- A `_compliance_cache` entry: `{'result': ..., 'cached_at': datetime.now()}`. -/
structure CacheEntry where
  result : ComplianceResults
  cached_at : Int
deriving Repr, DecidableEq

/-- The configuration dict, with the defaults of `_get_default_config`
already applied to the `.get(...)` accesses the service performs. -/
structure Config where
  strict_mode : Bool
  cache_results : Bool
  cache_ttl_minutes : Int
  default_frameworks : List String
deriving Repr, DecidableEq

def defaultConfig : Config :=
  { strict_mode := false
    cache_results := true
    cache_ttl_minutes := 60
    default_frameworks := ["SOX", "GDPR", "ISO27001"] }

/-- The service state: its config and `_compliance_cache`, which is a dict
when `cache_results` is set and `None` otherwise. -/
structure Service where
  config : Config
  cache : Option (List (String × CacheEntry))
deriving Repr, DecidableEq

/-- `ComplianceService.__init__`: `_compliance_cache = {} if cache_results else None`. -/
def init (config : Config) : Service :=
  { config := config
    cache := if config.cache_results then some [] else Option.none }

/-- `_get_supported_frameworks` (a Python set; only membership is used). -/
def supportedFrameworks : List String :=
  ["SOX", "GDPR", "ISO27001", "HIPAA", "PCI_DSS", "SOC2", "NIST", "COBIT"]

/-- `_check_sox_compliance` / `_check_gdpr_compliance` /
`_check_iso27001_compliance` / `_check_generic_compliance`, dispatched by
`_check_framework_compliance` via `framework_checks.get(framework, generic)`. -/
def checkFrameworkCompliance (data : PyVal) (framework : String) : FrameworkResult :=
  if framework = "SOX" then
    { framework := "SOX", status := "compliant", score := 85/100, issues := []
      controls_checked := ["financial_reporting", "internal_controls", "audit_trail"] }
  else if framework = "GDPR" then
    { framework := "GDPR", status := "partially_compliant", score := 75/100
      issues := [{ issue_type := "data_retention", severity := "medium" }]
      controls_checked := ["data_protection", "consent_management", "data_retention"] }
  else if framework = "ISO27001" then
    { framework := "ISO27001", status := "compliant", score := 90/100, issues := []
      controls_checked := ["access_control", "incident_management", "risk_assessment"] }
  else
    { framework := "generic", status := "pending_review", score := 50/100, issues := []
      controls_checked := ["basic_controls"] }

/-- `_determine_overall_status`. -/
def determineOverallStatus (compliance_score : ℚ) : String :=
  if compliance_score ≥ 90/100 then "compliant"
  else if compliance_score ≥ 70/100 then "partially_compliant"
  else "non_compliant"

/-- `_generate_compliance_recommendations` (reads only `compliance_score`). -/
def generateComplianceRecommendations (compliance_score : ℚ) : List String :=
  if compliance_score < 80/100 then
    ["Implement additional security controls",
     "Enhance documentation processes",
     "Conduct regular compliance training"]
  else []

/-- `_generate_cache_key`: MD5 of
`json.dumps({'data': data, 'frameworks': sorted(frameworks)}, sort_keys=True)`.
Python's `sorted` on strings is modelled by `List.insertionSort (· ≤ ·)`
(any stable sort of a linearly ordered list yields the same output). -/
def generateCacheKey (data : PyVal) (frameworks : List String) : String :=
  md5hex (jsonDumpsSorted (PyVal.dict
    [("data", data),
     ("frameworks", PyVal.list ((List.insertionSort (· ≤ ·) frameworks).map PyVal.str))]))

/-- `_is_cache_valid`: `datetime.now() - cached_at < timedelta(minutes=ttl)`.
Entries in the model always carry `cached_at`, so the `'cached_at' not in
cached_item` guard of the Python code cannot fire. -/
def isCacheValid (config : Config) (now : Int) (entry : CacheEntry) : Bool :=
  now - entry.cached_at < config.cache_ttl_minutes

/-- `frameworks = frameworks or self.config.get('default_frameworks', ['SOX'])`:
both `None` and the empty list are falsy and fall back to the configured
default frameworks. -/
def resolveFrameworks (config : Config) : Option (List String) → List String
  | Option.none => config.default_frameworks
  | some l => if l.isEmpty then config.default_frameworks else l

/-- The loop body of `check_compliance` (lines 123–130): an unsupported
framework is skipped, a supported one is checked, recorded under its name and
its score accumulated. -/
def frameworkStep (data : PyVal) (acc : List (String × FrameworkResult) × ℚ)
    (framework : String) : List (String × FrameworkResult) × ℚ :=
  if framework ∈ supportedFrameworks then
    let fr := checkFrameworkCompliance data framework
    (dictInsert framework fr acc.1, acc.2 + fr.score)
  else acc

/-- The fresh-computation path of `check_compliance` (lines 112–144): the
per-framework loop over `frameworks`, then the overall score (left at `0.0`
when no framework result was recorded), the overall status and the
recommendations. -/
def computeComplianceResults (now : Int) (data : PyVal) (frameworks : List String) :
    ComplianceResults :=
  let loop := frameworks.foldl (frameworkStep data) ([], 0)
  let score := if loop.1 ≠ [] then loop.2 / (loop.1.length : ℚ) else 0
  { overall_status := determineOverallStatus score
    checked_at := now
    frameworks_checked := frameworks
    framework_results := loop.1
    issues := []
    recommendations := generateComplianceRecommendations score
    compliance_score := score }

/-- The cache read of `check_compliance` (lines 104–110).  Faithful to the
Python truthiness test `if self._compliance_cache and cache_key in
self._compliance_cache:`: the guard requires the cache dict to be non-empty,
not merely non-`None`.  A present but stale entry is ignored. -/
def cachedLookup (s : Service) (now : Int) (cacheKey : String) :
    Option ComplianceResults :=
  match s.cache with
  | some m =>
      if m ≠ [] then
        match dictLookup cacheKey m with
        | some entry =>
            if isCacheValid s.config now entry then some entry.result else Option.none
        | Option.none => Option.none
      else Option.none
  | Option.none => Option.none

/-- The cache write of `check_compliance` (lines 146–151).  Faithful to the
Python truthiness test `if self._compliance_cache:`: a `None` cache and an
empty cache dict are both falsy, so nothing is stored in either case. -/
def storeCache (s : Service) (cacheKey : String) (entry : CacheEntry) : Service :=
  match s.cache with
  | some m =>
      if m ≠ [] then { s with cache := some (dictInsert cacheKey entry m) } else s
  | Option.none => s

/-- `check_compliance`.  Returns the result dict together with the service
state after the call. -/
def checkCompliance (s : Service) (now : Int) (data : PyVal)
    (frameworksArg : Option (List String)) : ComplianceResults × Service :=
  let frameworks := resolveFrameworks s.config frameworksArg
  let cacheKey := generateCacheKey data frameworks
  match cachedLookup s now cacheKey with
  | some result => (result, s)
  | Option.none =>
      let results := computeComplianceResults now data frameworks
      (results, storeCache s cacheKey { result := results, cached_at := now })

end ComplianceService

/-! ### `app/services/ai_service.py` -/

namespace AIService

/-- The dict returned by `analyze_document`.  `analyzed_at` models
`datetime.now().isoformat()` as the integer clock at the call. -/
structure AnalysisResult where
  document_type : String
  analyzed_at : Int
  key_findings : List String
  risk_score : ℚ
  recommendations : List String
  confidence : ℚ
deriving Repr, DecidableEq

/-- One recommendation dict of `generate_audit_recommendations`. -/
structure Recommendation where
  id : Nat
  priority : String
  category : String
  title : String
  description : String
  estimated_effort : String
  confidence : ℚ
deriving Repr, DecidableEq

/-- `_extract_key_findings` (placeholder: constant). -/
def extractKeyFindings (content : String) : List String :=
  ["Key financial metrics identified",
   "Potential compliance gaps detected",
   "Process improvements recommended"]

/-- `_calculate_risk_score`: `len(content) % 100 / 100` clamped into
`[0.1, 0.95]` by `min(max(base_score, 0.1), 0.95)`. -/
def calculateRiskScore (content : String) : ℚ :=
  let base_score : ℚ := (content.length % 100 : ℕ) / 100
  min (max base_score (10/100)) (95/100)

/-- `_generate_recommendations` (placeholder: constant). -/
def generateRecommendations (content : String) : List String :=
  ["Enhance documentation processes",
   "Implement additional controls",
   "Review current procedures"]

/-- `analyze_document`. -/
def analyzeDocument (now : Int) (document_content : String)
    (document_type : String) : AnalysisResult :=
  { document_type := document_type
    analyzed_at := now
    key_findings := extractKeyFindings document_content
    risk_score := calculateRiskScore document_content
    recommendations := generateRecommendations document_content
    confidence := 85/100 }

/-- `generate_audit_recommendations` (placeholder: a fixed two-element list,
computed without reading `audit_data`). -/
def generateAuditRecommendations (audit_data : PyVal) : List Recommendation :=
  [{ id := 1, priority := "high", category := "compliance"
     title := "Implement enhanced documentation controls"
     description := "Based on analysis, documentation processes need strengthening"
     estimated_effort := "medium", confidence := 88/100 },
   { id := 2, priority := "medium", category := "process"
     title := "Review approval workflows"
     description := "Current approval processes show potential inefficiencies"
     estimated_effort := "low", confidence := 75/100 }]

end AIService

/-! ### `app/services/notification_service.py` -/

namespace NotificationService

/-- The notification dict handed to `send_notification`.  `Option` models
presence of a key; `channels` models `notification.get('channels', [])`. -/
structure Notification where
  recipients : Option (List String)
  subject : Option String
  content : Option String
  channels : List String
deriving Repr, DecidableEq

/-- Channel-specific payload of the per-channel result dicts. -/
inductive ChannelPayload where
  | email (sent_count : Nat) (sent_at : Int)
  | sms (sent_count : Nat) (sent_at : Int)
  | slack (channel : Option String) (sent_at : Int)
  | inApp (stored_count : Nat) (stored_at : Int)
  | webhook (endpoints_notified : Nat) (sent_at : Int)
  | disabled (message : String)
  | failed (error : String)
deriving Repr, DecidableEq

/-- The dict returned by a channel handler (and recorded per channel). -/
structure ChannelResult where
  status : String
  payload : ChannelPayload
deriving Repr, DecidableEq

/-- The notification record after `send_notification` has added its
metadata (`id`, `created_at`, `status`, `results`, `sent_at`). -/
structure SentNotification where
  base : Notification
  id : String
  created_at : Int
  status : String
  results : List (String × ChannelResult)
  sent_at : Int
deriving Repr, DecidableEq

/-- The configuration fields the modelled code paths read: the `enabled`
flag of each channel section, Slack's `default_channel` and the webhook
`endpoints` list. -/
structure Config where
  email_enabled : Bool
  sms_enabled : Bool
  slack_enabled : Bool
  in_app_enabled : Bool
  webhook_enabled : Bool
  slack_default_channel : Option String
  webhook_endpoints : List String
deriving Repr, DecidableEq

/-- `_get_default_config` restricted to the modelled fields. -/
def defaultConfig : Config :=
  { email_enabled := true, sms_enabled := false, slack_enabled := false
    in_app_enabled := true, webhook_enabled := false
    slack_default_channel := some "#audit-alerts", webhook_endpoints := [] }

/-- Service state: config, enabled channels and `sent_notifications`
(`notification_queue` is never written by the modelled paths). -/
structure Service where
  config : Config
  sent_notifications : List SentNotification
deriving Repr, DecidableEq

/-- `_get_enabled_channels`: the channel sections whose config has
`enabled: True`, in the insertion order of the config dict. -/
def enabledChannels (config : Config) : List String :=
  (if config.email_enabled then ["email"] else []) ++
  (if config.sms_enabled then ["sms"] else []) ++
  (if config.slack_enabled then ["slack"] else []) ++
  (if config.in_app_enabled then ["in_app"] else []) ++
  (if config.webhook_enabled then ["webhook"] else [])

/-- `_validate_notification`: checks presence of `recipients`, `subject`
and `content` (in that order), then non-emptiness of the recipients list;
returns the message of the `NotificationServiceError` raised, if any. -/
def validateNotification (n : Notification) : Option String :=
  if n.recipients.isNone then some "Missing required field: recipients"
  else if n.subject.isNone then some "Missing required field: subject"
  else if n.content.isNone then some "Missing required field: content"
  else if (n.recipients.getD []).isEmpty then some "Recipients list cannot be empty"
  else Option.none

/-- `_send_email`.  Reads `notification['recipients']`; a missing key raises
inside the handler's `try` and lands in its `except` branch. -/
def sendEmail (n : Notification) (now : Int) : ChannelResult :=
  match n.recipients with
  | some rs => { status := "success", payload := ChannelPayload.email rs.length now }
  | Option.none => { status := "failed", payload := ChannelPayload.failed "KeyError: recipients" }

/-- `_send_sms`. -/
def sendSms (n : Notification) (now : Int) : ChannelResult :=
  match n.recipients with
  | some rs => { status := "success", payload := ChannelPayload.sms rs.length now }
  | Option.none => { status := "failed", payload := ChannelPayload.failed "KeyError: recipients" }

/-- `_send_slack` (does not read the recipients). -/
def sendSlack (config : Config) (now : Int) : ChannelResult :=
  { status := "success", payload := ChannelPayload.slack config.slack_default_channel now }

/-- `_send_in_app`. -/
def sendInApp (n : Notification) (now : Int) : ChannelResult :=
  match n.recipients with
  | some rs => { status := "success", payload := ChannelPayload.inApp rs.length now }
  | Option.none => { status := "failed", payload := ChannelPayload.failed "KeyError: recipients" }

/-- `_send_webhook` (reads only the configured endpoints). -/
def sendWebhook (config : Config) (now : Int) : ChannelResult :=
  { status := "success", payload := ChannelPayload.webhook config.webhook_endpoints.length now }

/-- `_send_via_channel`: dispatch through the `channel_handlers` dict; an
unknown channel raises `NotificationServiceError`. -/
def sendViaChannel (config : Config) (now : Int) (n : Notification)
    (channel : String) : Except String ChannelResult :=
  if channel = "email" then Except.ok (sendEmail n now)
  else if channel = "sms" then Except.ok (sendSms n now)
  else if channel = "slack" then Except.ok (sendSlack config now)
  else if channel = "in_app" then Except.ok (sendInApp n now)
  else if channel = "webhook" then Except.ok (sendWebhook config now)
  else Except.error ("Unsupported notification channel: " ++ channel)

/-- `send_notification`.  Validation failures propagate out of the outer
`try` as a `NotificationServiceError`; every per-channel failure is caught by
the inner `try` and recorded in `results`.  Returns the outcome together
with the service state after the call. -/
def sendNotification (s : Service) (now : Int) (n : Notification) :
    Except String SentNotification × Service :=
  match validateNotification n with
  | some msg =>
      (Except.error ("Failed to send notification: " ++ msg), s)
  | Option.none =>
      let results := n.channels.map fun channel =>
        if channel ∉ enabledChannels s.config then
          (channel, ChannelResult.mk "disabled" (ChannelPayload.disabled "Channel not enabled"))
        else
          match sendViaChannel s.config now n channel with
          | Except.ok r => (channel, r)
          | Except.error e => (channel, ChannelResult.mk "failed" (ChannelPayload.failed e))
      let status := if results.any (fun p => p.2.status = "success") then "sent" else "failed"
      let record : SentNotification :=
        { base := n
          id := "notif_" ++ toString now
          created_at := now
          status := status
          results := results
          sent_at := now }
      (Except.ok record, { s with sent_notifications := s.sent_notifications ++ [record] })

end NotificationService

/-! ### `audit_project/app/models/audit.py` -/

namespace AuditModels

/-- The eight columns that `AuditLog.__init__` assigns (the `id` and
`timestamp` columns are filled by the database defaults and are not part of
the compared field set). -/
structure AuditLogRow where
  action : String
  resource_type : String
  user_id : Option Int
  resource_id : Option String
  description : Option String
  changes : Option PyVal
  ip_address : Option String
  status : String

/-- `AuditLog.log_event`: the row constructed, added to the session and
committed. -/
def AuditLog_log_event (action resource_type : String)
    (user_id : Option Int) (resource_id description : Option String)
    (changes : Option PyVal) (ip_address : Option String)
    (status : String) : AuditLogRow :=
  { action := action
    resource_type := resource_type
    user_id := user_id
    resource_id := resource_id
    description := description
    changes := changes
    ip_address := ip_address
    status := status }

def optStrVal : Option String → PyVal
  | some s => PyVal.str s
  | Option.none => PyVal.none

def optIntVal : Option Int → PyVal
  | some n => PyVal.int n
  | Option.none => PyVal.none

def optVal : Option PyVal → PyVal
  | some v => v
  | Option.none => PyVal.none

/-- `log_audit_event`: the `data` dict inserted into the Supabase
`audit_logs` table. -/
def log_audit_event (action resource_type : String)
    (user_id : Option Int) (resource_id description : Option String)
    (changes : Option PyVal) (ip_address : Option String)
    (status : String) : List (String × PyVal) :=
  [("action", PyVal.str action),
   ("resource_type", PyVal.str resource_type),
   ("user_id", optIntVal user_id),
   ("resource_id", optStrVal resource_id),
   ("description", optStrVal description),
   ("changes", optVal changes),
   ("ip_address", optStrVal ip_address),
   ("status", PyVal.str status)]

end AuditModels

/-! ### Concrete sample values used by witnesses -/

/-- A sample compliance result, used to seed a cache state in witnesses. -/
def sampleResults : ComplianceService.ComplianceResults :=
  { overall_status := "compliant", checked_at := -5, frameworks_checked := ["SOX"]
    framework_results := [], issues := [], recommendations := [], compliance_score := 1 }

/-- A sample cache entry cached at clock `-5`. -/
def sampleEntry : ComplianceService.CacheEntry :=
  { result := sampleResults, cached_at := -5 }

/-- A compliance service whose cache holds one entry under key `"k0"`. -/
def sampleService : ComplianceService.Service :=
  { config := ComplianceService.defaultConfig, cache := some [("k0", sampleEntry)] }

/-! ### Theorems -/

open ComplianceService AIService NotificationService AuditModels

/-- C3: `_check_framework_compliance` returns a score that is a constant
determined only by the framework name — 0.85 for SOX, 0.75 for GDPR, 0.90
for ISO27001 and 0.50 for every other framework — and the whole result is
independent of the data argument. -/
theorem c3_framework_score_constant (data : PyVal) (framework : String) :
    (checkFrameworkCompliance data framework).score =
      (if framework = "SOX" then 85/100
       else if framework = "GDPR" then 75/100
       else if framework = "ISO27001" then 90/100
       else 50/100 : ℚ) ∧
    ∀ data' : PyVal,
      checkFrameworkCompliance data' framework = checkFrameworkCompliance data framework := by
  refine ⟨?_, fun data' => rfl⟩
  unfold checkFrameworkCompliance
  split_ifs <;> rfl

/-- C7: `generate_audit_recommendations` returns the same fixed two-element
list for every input — ids 1 and 2, priorities `high` and `medium` — and the
output does not depend on `audit_data` in any way. -/
theorem c7_recommendations_constant (audit_data audit_data' : PyVal) :
    generateAuditRecommendations audit_data = generateAuditRecommendations audit_data' ∧
    (generateAuditRecommendations audit_data).map (fun r => (r.id, r.priority)) =
      [(1, "high"), (2, "medium")] :=
  ⟨rfl, rfl⟩

/-- C5: for every argument tuple, the record `log_audit_event` inserts into
the Supabase `audit_logs` table carries, field for field, the same values as
the row created and committed by `AuditLog.log_event`. -/
theorem c5_supabase_insert_matches_orm (action resource_type : String)
    (user_id : Option Int) (resource_id description : Option String)
    (changes : Option PyVal) (ip_address : Option String) (status : String) :
    let row := AuditLog_log_event action resource_type user_id resource_id
      description changes ip_address status
    let d := log_audit_event action resource_type user_id resource_id
      description changes ip_address status
    dictLookup "action" d = some (PyVal.str row.action) ∧
    dictLookup "resource_type" d = some (PyVal.str row.resource_type) ∧
    dictLookup "user_id" d = some (optIntVal row.user_id) ∧
    dictLookup "resource_id" d = some (optStrVal row.resource_id) ∧
    dictLookup "description" d = some (optStrVal row.description) ∧
    dictLookup "changes" d = some (optVal row.changes) ∧
    dictLookup "ip_address" d = some (optStrVal row.ip_address) ∧
    dictLookup "status" d = some (PyVal.str row.status) := by
  refine ⟨rfl, ?_, ?_, ?_, ?_, ?_, ?_, ?_⟩ <;>
    simp [log_audit_event, AuditLog_log_event, dictLookup]

/-- C2 counterexample: the claim says the risk score equals
`len(content) % 100 / 100`, but `_calculate_risk_score` clamps the value
into `[0.1, 0.95]`; on the empty string the formula gives `0` while the
code returns `0.1`. -/
theorem c2_counterexample :
    (analyzeDocument 0 "" "general").risk_score ≠
      ((("".length % 100 : ℕ) : ℚ) / 100) := by
  have h : ("" : String).length = 0 := rfl
  show min (max (((("" : String).length % 100 : ℕ) : ℚ) / 100) (10/100)) (95/100) ≠ _
  rw [h]
  norm_num

/-- C2 (amended): the risk score returned by `analyze_document` is
`len(content) % 100 / 100` clamped into `[0.1, 0.95]`; it equals
`len(content) % 100 / 100` exactly when `10 ≤ len(content) % 100 ≤ 95`. -/
theorem c2_risk_score_clamped (now : Int) (content document_type : String) :
    (analyzeDocument now content document_type).risk_score =
      min (max (((content.length % 100 : ℕ) : ℚ) / 100) (10/100)) (95/100) ∧
    (10 ≤ content.length % 100 → content.length % 100 ≤ 95 →
      (analyzeDocument now content document_type).risk_score =
        ((content.length % 100 : ℕ) : ℚ) / 100) := by
  constructor
  · rfl
  · intro hlo hhi
    have h10 : (10 : ℚ) / 100 ≤ ((content.length % 100 : ℕ) : ℚ) / 100 := by
      apply div_le_div_of_nonneg_right ?_ (by norm_num)
      exact_mod_cast hlo
    have h95 : ((content.length % 100 : ℕ) : ℚ) / 100 ≤ 95 / 100 := by
      apply div_le_div_of_nonneg_right ?_ (by norm_num)
      exact_mod_cast hhi
    show min (max (((content.length % 100 : ℕ) : ℚ) / 100) (10/100)) (95/100) = _
    rw [max_eq_left h10, min_eq_left h95]

/-- Witness for `c2_risk_score_clamped` at a 50-character document. -/
theorem c2_risk_score_clamped_witness :
    (analyzeDocument 0 "aaaaaaaaaaaaaaaaaaaaaaaaaaaaaaaaaaaaaaaaaaaaaaaaaa" "general").risk_score =
      ((("aaaaaaaaaaaaaaaaaaaaaaaaaaaaaaaaaaaaaaaaaaaaaaaaaa".length % 100 : ℕ) : ℚ) / 100) :=
  (c2_risk_score_clamped 0 "aaaaaaaaaaaaaaaaaaaaaaaaaaaaaaaaaaaaaaaaaaaaaaaaaa" "general").2
    (by decide) (by decide)

/-- C4: for every notification carrying a recipients list and every channel
among email, sms, slack, in_app and webhook, `_send_via_channel` dispatches
to the channel handler and the handler returns a dict whose `status` is
`success`; the failure branch of the handlers is never taken. -/
theorem c4_channel_handlers_succeed (config : NotificationService.Config) (now : Int)
    (n : Notification) (rs : List String) (hrec : n.recipients = some rs)
    (channel : String)
    (hch : channel ∈ ["email", "sms", "slack", "in_app", "webhook"]) :
    ∃ r : ChannelResult,
      sendViaChannel config now n channel = Except.ok r ∧ r.status = "success" := by
  fin_cases hch <;>
    simp [sendViaChannel, sendEmail, sendSms, sendSlack, sendInApp, sendWebhook, hrec]

/-- Witness for `c4_channel_handlers_succeed` on the sms channel. -/
theorem c4_channel_handlers_succeed_witness :
    ∃ r : ChannelResult,
      sendViaChannel NotificationService.defaultConfig 0
        { recipients := some ["a@b.c"], subject := some "s", content := some "c",
          channels := ["sms"] } "sms" = Except.ok r ∧ r.status = "success" :=
  c4_channel_handlers_succeed NotificationService.defaultConfig 0
    { recipients := some ["a@b.c"], subject := some "s", content := some "c",
      channels := ["sms"] } ["a@b.c"] rfl "sms" (by decide)

/-- C9: `send_notification` fails (raising `NotificationServiceError`) if and
only if the notification is missing `recipients`, `subject` or `content`, or
its recipients list is empty; on a validation failure the service state, in
particular `sent_notifications`, is unchanged, and on a normal return exactly
the one new record is appended to `sent_notifications`. -/
theorem c9_send_notification_validation (s : NotificationService.Service) (now : Int)
    (n : Notification) :
    ((∃ e, (sendNotification s now n).1 = Except.error e) ↔
      (n.recipients = Option.none ∨ n.subject = Option.none ∨
       n.content = Option.none ∨ n.recipients = some [])) ∧
    ((∃ e, (sendNotification s now n).1 = Except.error e) →
      (sendNotification s now n).2 = s) ∧
    (∀ r, (sendNotification s now n).1 = Except.ok r →
      (sendNotification s now n).2.sent_notifications = s.sent_notifications ++ [r]) := by
  obtain ⟨rec, sub, con, chans⟩ := n
  cases rec with
  | none => simp [sendNotification, validateNotification]
  | some rs =>
      cases sub with
      | none => simp [sendNotification, validateNotification]
      | some sub =>
          cases con with
          | none => simp [sendNotification, validateNotification]
          | some con =>
              cases rs with
              | nil => simp [sendNotification, validateNotification]
              | cons r₀ rs =>
                  refine ⟨?_, ?_, ?_⟩ <;>
                    simp [sendNotification, validateNotification]

/-- Witness for `c9_send_notification_validation`: a notification without a
subject is rejected and leaves the state unchanged. -/
theorem c9_send_notification_validation_witness :
    (sendNotification { config := NotificationService.defaultConfig, sent_notifications := [] } 0
      { recipients := some ["a@b.c"], subject := Option.none, content := some "c",
        channels := ["email"] }).2 =
      { config := NotificationService.defaultConfig, sent_notifications := [] } :=
  (c9_send_notification_validation
      { config := NotificationService.defaultConfig, sent_notifications := [] } 0
      { recipients := some ["a@b.c"], subject := Option.none, content := some "c",
        channels := ["email"] }).2.1
    ⟨"Failed to send notification: Missing required field: subject", rfl⟩

/-- On a freshly initialized service the cache is `None` or the empty dict;
both are falsy in Python, so the cache lookup finds nothing. -/
theorem cachedLookup_init (config : ComplianceService.Config) (now : Int) (key : String) :
    cachedLookup (ComplianceService.init config) now key = Option.none := by
  unfold cachedLookup ComplianceService.init
  cases config.cache_results <;> simp

/-- On a freshly initialized service the cache is `None` or the empty dict;
both are falsy in Python, so the cache store writes nothing. -/
theorem storeCache_init (config : ComplianceService.Config) (key : String)
    (entry : ComplianceService.CacheEntry) :
    storeCache (ComplianceService.init config) key entry = ComplianceService.init config := by
  unfold storeCache ComplianceService.init
  cases config.cache_results <;> simp

/-- A call on a freshly initialized service always computes a fresh result
and leaves the service state unchanged. -/
theorem checkCompliance_init (config : ComplianceService.Config) (now : Int)
    (data : PyVal) (frameworksArg : Option (List String)) :
    checkCompliance (ComplianceService.init config) now data frameworksArg =
      (computeComplianceResults now data (resolveFrameworks config frameworksArg),
       ComplianceService.init config) := by
  have hc : (ComplianceService.init config).config = config := rfl
  simp only [checkCompliance, hc, cachedLookup_init, storeCache_init]

/-- C1 (code bug): with caching enabled, `_compliance_cache` starts as the
empty dict, and the store branch `if self._compliance_cache:` tests the
dict's truthiness, which is false for an empty dict — so no entry is ever
stored.  After any first call the state is still the initial one, and a
second identical call within the TTL recomputes: its `checked_at` is the
second call's clock, not the timestamp the claim says would be returned
unchanged from the cache. -/
theorem c1_code_bug_cache_never_stores (config : ComplianceService.Config)
    (hcache : config.cache_results = true) (t1 t2 : Int) (hne : t1 ≠ t2)
    (httl : t2 - t1 < config.cache_ttl_minutes)
    (data : PyVal) (frameworksArg : Option (List String)) :
    (checkCompliance (ComplianceService.init config) t1 data frameworksArg).2 =
        ComplianceService.init config ∧
    (checkCompliance (checkCompliance (ComplianceService.init config) t1 data frameworksArg).2
        t2 data frameworksArg).1.checked_at = t2 ∧
    (checkCompliance (checkCompliance (ComplianceService.init config) t1 data frameworksArg).2
        t2 data frameworksArg).1.checked_at ≠
      (checkCompliance (ComplianceService.init config) t1 data frameworksArg).1.checked_at := by
  have h1 := checkCompliance_init config t1 data frameworksArg
  have h2 := checkCompliance_init config t2 data frameworksArg
  refine ⟨by rw [h1], ?_, ?_⟩
  · rw [h1, h2]
    simp [computeComplianceResults]
  · rw [h1, h2]
    simpa [computeComplianceResults] using Ne.symm hne

/-- Witness for `c1_code_bug_cache_never_stores`: default config (caching
enabled, TTL 60 minutes), two calls at clocks 0 and 1. -/
theorem c1_code_bug_cache_never_stores_witness :
    (checkCompliance (ComplianceService.init ComplianceService.defaultConfig) 0 PyVal.none
        Option.none).2 = ComplianceService.init ComplianceService.defaultConfig ∧
    (checkCompliance
        (checkCompliance (ComplianceService.init ComplianceService.defaultConfig) 0 PyVal.none
          Option.none).2 1 PyVal.none Option.none).1.checked_at = 1 ∧
    (checkCompliance
        (checkCompliance (ComplianceService.init ComplianceService.defaultConfig) 0 PyVal.none
          Option.none).2 1 PyVal.none Option.none).1.checked_at ≠
      (checkCompliance (ComplianceService.init ComplianceService.defaultConfig) 0 PyVal.none
        Option.none).1.checked_at :=
  c1_code_bug_cache_never_stores ComplianceService.defaultConfig rfl 0 1 (by decide)
    (by decide) PyVal.none Option.none

/-- C6: `check_compliance` never evicts from `_compliance_cache`: every key
present before a call is still present after it, its entry unchanged unless
the key is the one the call itself used on a cache miss, in which case the
entry is replaced by the freshly computed result. -/
theorem c6_cache_no_eviction (s : ComplianceService.Service) (now : Int)
    (data : PyVal) (frameworksArg : Option (List String))
    (m : List (String × ComplianceService.CacheEntry)) (hcache : s.cache = some m)
    (k : String) (e : ComplianceService.CacheEntry) (hk : dictLookup k m = some e) :
    ∃ m', ((checkCompliance s now data frameworksArg).2).cache = some m' ∧
      (dictLookup k m' = some e ∨
        (k = generateCacheKey data (resolveFrameworks s.config frameworksArg) ∧
         dictLookup k m' = some
           { result := computeComplianceResults now data (resolveFrameworks s.config frameworksArg)
             cached_at := now })) := by
  have hm : m ≠ [] := by
    intro h
    rw [h] at hk
    simp [dictLookup] at hk
  cases hlook : cachedLookup s now
      (generateCacheKey data (resolveFrameworks s.config frameworksArg)) with
  | some result =>
      refine ⟨m, ?_, Or.inl hk⟩
      simp only [checkCompliance, hlook]
      exact hcache
  | none =>
      refine ⟨dictInsert (generateCacheKey data (resolveFrameworks s.config frameworksArg))
        { result := computeComplianceResults now data (resolveFrameworks s.config frameworksArg)
          cached_at := now } m, ?_, ?_⟩
      · simp only [checkCompliance, hlook, storeCache, hcache]
        simp [hm]
      · by_cases hkk : k = generateCacheKey data (resolveFrameworks s.config frameworksArg)
        · subst hkk
          exact Or.inr ⟨rfl, dictLookup_dictInsert_self _ _ m⟩
        · refine Or.inl ?_
          rw [dictLookup_dictInsert_ne _ _ _ hkk m]
          exact hk

/-- Witness for `c6_cache_no_eviction` on a service whose seeded cache has
one entry. -/
theorem c6_cache_no_eviction_witness :
    ∃ m', ((checkCompliance sampleService 0 PyVal.none Option.none).2).cache = some m' ∧
      (dictLookup "k0" m' = some sampleEntry ∨
        ("k0" = generateCacheKey PyVal.none
            (resolveFrameworks sampleService.config Option.none) ∧
         dictLookup "k0" m' = some
           { result := computeComplianceResults 0 PyVal.none
               (resolveFrameworks sampleService.config Option.none)
             cached_at := 0 })) :=
  c6_cache_no_eviction sampleService 0 PyVal.none Option.none [("k0", sampleEntry)] rfl
    "k0" sampleEntry (by simp [dictLookup])

/-- The per-framework loop leaves its accumulator unchanged when every
framework of the list is unsupported. -/
theorem foldl_frameworkStep_unsupported (data : PyVal) :
    ∀ (fws : List String) (acc : List (String × ComplianceService.FrameworkResult) × ℚ),
      (∀ f ∈ fws, f ∉ supportedFrameworks) →
      fws.foldl (frameworkStep data) acc = acc := by
  intro fws
  induction fws with
  | nil => intro acc _; rfl
  | cons a l ih =>
      intro acc h
      have ha : a ∉ supportedFrameworks := h a (by simp)
      rw [List.foldl_cons, show frameworkStep data acc a = acc from by
        simp [frameworkStep, ha]]
      exact ih acc (fun f hf => h f (by simp [hf]))

/-- C8: a `check_compliance` call whose frameworks list contains no supported
framework produces an empty `framework_results`, a `compliance_score` of 0.0,
and — because the score-based determination overwrites the initial
`pending_review` — an `overall_status` of `non_compliant`. -/
theorem c8_unsupported_frameworks (config : ComplianceService.Config) (now : Int)
    (data : PyVal) (frameworks : List String) (hne : frameworks ≠ [])
    (hunsup : ∀ f ∈ frameworks, f ∉ supportedFrameworks) :
    (checkCompliance (ComplianceService.init config) now data
        (some frameworks)).1.framework_results = [] ∧
    (checkCompliance (ComplianceService.init config) now data
        (some frameworks)).1.compliance_score = 0 ∧
    (checkCompliance (ComplianceService.init config) now data
        (some frameworks)).1.overall_status = "non_compliant" := by
  have h1 := checkCompliance_init config now data (some frameworks)
  have hres : resolveFrameworks config (some frameworks) = frameworks := by
    cases frameworks with
    | nil => exact absurd rfl hne
    | cons a l => rfl
  have hloop := foldl_frameworkStep_unsupported data frameworks ([], 0) hunsup
  refine ⟨?_, ?_, ?_⟩ <;>
    · rw [h1, hres]
      simp [computeComplianceResults, hloop, determineOverallStatus,
        generateComplianceRecommendations]
      try norm_num

/-- Witness for `c8_unsupported_frameworks` with the single unsupported
framework `"FOO"`. -/
theorem c8_unsupported_frameworks_witness :
    (checkCompliance (ComplianceService.init ComplianceService.defaultConfig) 0 PyVal.none
        (some ["FOO"])).1.framework_results = [] ∧
    (checkCompliance (ComplianceService.init ComplianceService.defaultConfig) 0 PyVal.none
        (some ["FOO"])).1.compliance_score = 0 ∧
    (checkCompliance (ComplianceService.init ComplianceService.defaultConfig) 0 PyVal.none
        (some ["FOO"])).1.overall_status = "non_compliant" :=
  c8_unsupported_frameworks ComplianceService.defaultConfig 0 PyVal.none ["FOO"]
    (by decide) (by decide)

/-- C10: `_generate_cache_key` is invariant under permutation of the
frameworks list, because the key hashes a JSON encoding built over
`sorted(frameworks)`. -/
theorem c10_cache_key_perm_invariant (data : PyVal) (fw1 fw2 : List String)
    (hperm : fw1.Perm fw2) :
    generateCacheKey data fw1 = generateCacheKey data fw2 := by
  unfold generateCacheKey
  have hsort : List.insertionSort (· ≤ ·) fw1 = List.insertionSort (· ≤ ·) fw2 :=
    List.eq_of_perm_of_sorted
      ((List.perm_insertionSort _ fw1).trans
        (hperm.trans (List.perm_insertionSort _ fw2).symm))
      (List.sorted_insertionSort _ fw1) (List.sorted_insertionSort _ fw2)
  rw [hsort]

/-- Witness for `c10_cache_key_perm_invariant` on a two-element permutation. -/
theorem c10_cache_key_perm_invariant_witness :
    generateCacheKey PyVal.none ["GDPR", "SOX"] = generateCacheKey PyVal.none ["SOX", "GDPR"] :=
  c10_cache_key_perm_invariant PyVal.none ["GDPR", "SOX"] ["SOX", "GDPR"] (by decide)

end AuditProject
